import Mathlib

/-!
Verification development for the window-automation core of the
`hdsemg-trail` repository (files `resources/get_save_dialog.py` and
`app/main.py`).  The Python source is shallowly embedded: pure string
manipulation becomes Lean functions over `String`/`List Char`, the
pywinauto desktop is an explicit environment value, exceptions become
`Except`, and the bounded polling loop becomes a fuel-indexed recursion
whose fuel is the number of poll intervals that fit in the timeout.
-/

namespace HdsemgTrail

/-! ## String helpers

Models of the Python string primitives the source relies on.
Case folding is modelled with `Char.toLower`, i.e. ASCII folding; every
string any claim exercises is ASCII apart from the dash characters in
window titles, which case folding does not touch. -/

/-- Test that the second list is an initial run of the first (model of
Python `str.startswith`, used to build substring containment). -/
def listStartsWith : List Char → List Char → Bool
  | _, [] => true
  | [], _ :: _ => false
  | c :: cs, d :: ds => c == d && listStartsWith cs ds

/-- Test that `needle` occurs contiguously inside `hay`; model of the
Python expression `needle in hay` on strings. -/
def listContainsSub : List Char → List Char → Bool
  | [], needle => listStartsWith [] needle
  | c :: cs, needle => listStartsWith (c :: cs) needle || listContainsSub cs needle

/-- String-level wrapper for `listContainsSub`. -/
def containsSub (hay needle : String) : Bool :=
  listContainsSub hay.data needle.data

/-- Model of Python `str.lower` (ASCII case folding; full Unicode folding
is not modelled, no claim exercises it). -/
def pyLower (s : String) : String :=
  String.mk (s.data.map Char.toLower)

/-! ## Keyword derivation (`_derive_keyword`, get_save_dialog.py lines 18-22)

The source splits the window title with the regular expression
`\s*[-–—]\s*`, strips each part, drops empties and takes the last part,
falling back to the stripped title.  Because every part is subsequently
stripped and empty parts are dropped, splitting on the three dash
characters alone and stripping afterwards produces exactly the same
part list as the regex (the `\s*` on either side of the dash only moves
whitespace from a part into the separator, and `strip` removes that
whitespace from the part anyway). -/

/-- The dash-like separator characters of the regex `[-–—]`. -/
def isDashChar (c : Char) : Bool :=
  c == '-' || c == '–' || c == '—'

/-- Split a character list at every dash-like separator, keeping empty
chunks (the behaviour of `re.split` on single-character separators). -/
def splitDash : List Char → List (List Char)
  | [] => [[]]
  | c :: cs =>
    if isDashChar c then [] :: splitDash cs
    else
      match splitDash cs with
      | [] => [[c]]
      | h :: t => (c :: h) :: t

/-- Model of Python `str.strip`: drop whitespace from both ends. -/
def stripChars (cs : List Char) : List Char :=
  ((cs.dropWhile Char.isWhitespace).reverse.dropWhile Char.isWhitespace).reverse

/-- The stripped, non-empty parts of the title, in order (the list
comprehension in `_derive_keyword`). -/
def derive_parts (title : String) : List (List Char) :=
  ((splitDash title.data).map stripChars).filter (fun p => !p.isEmpty)

/-- Model of `_derive_keyword`: last stripped non-empty dash-segment of
the title, falling back to the stripped title. -/
def derive_keyword (title : String) : String :=
  match (derive_parts title).getLast? with
  | some p => String.mk p
  | none => String.mk (stripChars title.data)

/-! ## Target identity store (get_save_dialog.py lines 25-42, 89-96) -/

/-- The persisted target identity: window class name and title keyword
(the dict `{"class_name": ..., "keyword": ...}` of the source). -/
structure Config where
  class_name : String
  keyword : String
deriving DecidableEq

/-- One row of the interactive window list built by `_prompt_for_config`. -/
structure WindowEntry where
  title : String
  class_name : String
deriving DecidableEq

/-- Model of `_show_window_selection_dialog.on_select`: given the listbox
rows and the current selection (none when nothing is selected), build
the config from the selected row.  The listbox index returned by tk is
always in range; the out-of-range branch only makes the model total. -/
def on_select (windows : List WindowEntry) (selection : Option Nat) : Option Config :=
  match selection with
  | none => none
  | some idx =>
    match windows[idx]? with
    | some selected => some ⟨selected.class_name, derive_keyword selected.title⟩
    | none => none

/-! ### JSON documents and `_load_config`

JSON values as produced by `json.loads`.  Numbers are modelled as
integers: no claim involves a numeric field, the model only needs
"a value that is not a dict / not the expected keys".  `pyStr` models
Python `str()` on such a value; for nested containers it renders the
Python `repr` form, where the quoting of a quote character inside a
string is not modelled (no claim stores container values). -/

inductive Json where
  | null
  | bool (b : Bool)
  | int (n : Int)
  | str (s : String)
  | arr (elems : List Json)
  | obj (fields : List (String × Json))

mutual

/-- Python `repr` of a parsed JSON value. -/
def pyRepr : Json → String
  | .null => "None"
  | .bool true => "True"
  | .bool false => "False"
  | .int n => toString n
  | .str s => "\x27" ++ s ++ "\x27"
  | .arr elems => "[" ++ pyReprElems elems ++ "]"
  | .obj fields => "\x7b" ++ pyReprFields fields ++ "\x7d"

/-- Comma-separated reprs of list elements. -/
def pyReprElems : List Json → String
  | [] => ""
  | [v] => pyRepr v
  | v :: vs => pyRepr v ++ ", " ++ pyReprElems vs

/-- Comma-separated reprs of dict entries. -/
def pyReprFields : List (String × Json) → String
  | [] => ""
  | [(k, v)] => "\x27" ++ k ++ "\x27: " ++ pyRepr v
  | (k, v) :: kvs => "\x27" ++ k ++ "\x27: " ++ pyRepr v ++ ", " ++ pyReprFields kvs

end

/-- Python `str()` of a parsed JSON value. -/
def pyStr : Json → String
  | .str s => s
  | v => pyRepr v

/-- Dict lookup: `json.loads` keeps the last duplicate of a key, so the
lookup takes the last binding. -/
def dictGet (kvs : List (String × Json)) (k : String) : Option Json :=
  (kvs.reverse.find? (fun p => p.1 == k)).map (fun p => p.2)

/-- Dict key membership test (`"class_name" in data`). -/
def dictHas (kvs : List (String × Json)) (k : String) : Bool :=
  kvs.any (fun p => p.1 == k)

/-- What the config file holds when it exists: either text that
`json.loads` rejects, or a parsed JSON document. -/
inductive FileContent where
  | noJson
  | json (doc : Json)

/-- State of the persisted config file as `_load_config` finds it. -/
inductive FileState where
  | missing
  | content (c : FileContent)

/-- The `try` block of `_load_config`: `json.loads` failure and the
explicit `ValueError("config is not a dict")` are the raising paths; a
dict lacking one of the keys falls through the `if` and reaches the
final `return None` without raising. -/
def load_config_try : FileContent → Except String (Option Config)
  | .noJson => .error "json.loads failed"
  | .json (.obj kvs) =>
    if dictHas kvs "class_name" && dictHas kvs "keyword" then
      match dictGet kvs "class_name", dictGet kvs "keyword" with
      | some c, some k => .ok (some ⟨pyStr c, pyStr k⟩)
      | _, _ => .ok none
    else .ok none
  | .json _ => .error "config is not a dict"

/-- Model of `_load_config`: a missing file returns `None` before the
`try`; any exception inside the `try` is caught, logged and turned into
`None`. -/
def load_config (fs : FileState) : Option Config :=
  match fs with
  | .missing => none
  | .content c =>
    match load_config_try c with
    | .error _ => none
    | .ok r => r

/-- The malformed / absent file states enumerated by claim C5. -/
def isMalformed : FileState → Bool
  | .missing => true
  | .content .noJson => true
  | .content (.json (.obj kvs)) => !(dictHas kvs "class_name" && dictHas kvs "keyword")
  | .content (.json _) => true

/-! ### Persistence (`_save_config`, lines 40-42)

`_save_config` serialises the config with
`json.dumps(config, ensure_ascii=True, indent=2)` and writes it with
`Path.write_text`, i.e. it opens the target file itself in truncating
write mode.  For the atomicity claim the write is modelled at the level
of primitive file-system steps: one truncation of the target followed
by the characters of the encoding, any prefix of which may have been
applied when the process is interrupted. -/

/-- Hexadecimal digit, lowercase as produced by Python `json`. -/
def hexDigit (n : Nat) : Char :=
  if n < 10 then Char.ofNat (48 + n) else Char.ofNat (87 + n)

/-- Four-digit hexadecimal rendering used by `\u` escapes. -/
def toHex4 (n : Nat) : String :=
  String.mk [hexDigit (n / 4096 % 16), hexDigit (n / 256 % 16),
             hexDigit (n / 16 % 16), hexDigit (n % 16)]

/-- Escape of one character in a JSON string under `ensure_ascii=True`:
characters outside the printable ASCII range 0x20-0x7e are escaped, with
surrogate pairs above the basic plane. -/
def jsonEscapeChar (c : Char) : String :=
  if c == '"' then "\\\""
  else if c == '\\' then "\\\\"
  else if c == '\n' then "\\n"
  else if c == '\r' then "\\r"
  else if c == '\t' then "\\t"
  else if c.toNat == 8 then "\\b"
  else if c.toNat == 12 then "\\f"
  else if c.toNat < 32 then "\\u" ++ toHex4 c.toNat
  else if c.toNat < 127 then String.mk [c]
  else if c.toNat < 65536 then "\\u" ++ toHex4 c.toNat
  else
    "\\u" ++ toHex4 (55296 + (c.toNat - 65536) / 1024) ++
      "\\u" ++ toHex4 (56320 + (c.toNat - 65536) % 1024)

/-- JSON string-body escaping. -/
def jsonEscape (s : String) : String :=
  String.join (s.data.map jsonEscapeChar)

/-- The exact text `json.dumps(config, ensure_ascii=True, indent=2)`
produces for the two-key config dict (insertion order `class_name`,
`keyword`; `indent=2` puts each entry on its own line). -/
def dumpsConfig (config : Config) : String :=
  "\x7b\n  \"class_name\": \"" ++ jsonEscape config.class_name ++
    "\",\n  \"keyword\": \"" ++ jsonEscape config.keyword ++ "\"\n\x7d"

/-- Primitive file-system steps of an in-place `write_text`. -/
inductive FsOp where
  | truncate
  | writeChar (c : Char)

/-- Steps performed by `Path.write_text(content)` on the target file:
truncate, then append the characters.  A crash can leave any prefix of
this step list applied. -/
def write_text_ops (content : String) : List FsOp :=
  FsOp.truncate :: content.data.map FsOp.writeChar

/-- Steps performed by `_save_config`. -/
def save_config_ops (config : Config) : List FsOp :=
  write_text_ops (dumpsConfig config)

/-- Effect of one step on the file contents. -/
def applyOp (content : List Char) : FsOp → List Char
  | .truncate => []
  | .writeChar c => content ++ [c]

/-- Contents of the file after a run (or interrupted run) of steps. -/
def applyOps (old : List Char) (ops : List FsOp) : List Char :=
  ops.foldl applyOp old

/-! ## Dialog control tree and the interactor
(`_fill_and_save_win32`, get_save_dialog.py lines 241-273)

A dialog is a tree of controls; `child_window(...)` searches all
descendants for the given class name and title pattern and resolves to
a wrapper only when the match is unique, raising
`ElementNotFoundError` on no match and `ElementAmbiguousError` on
several (pywinauto semantics; match order is irrelevant to every claim
because they only exercise zero or one match). -/

inductive Ctl where
  | node (class_name : String) (title : String) (children : List Ctl)

/-- Class name of a control. -/
def Ctl.class_name : Ctl → String
  | .node c _ _ => c

/-- Title (window text) of a control. -/
def Ctl.title : Ctl → String
  | .node _ t _ => t

mutual

/-- All strict descendants of a control, parent before subtree. -/
def Ctl.descendants : Ctl → List Ctl
  | .node _ _ children => Ctl.descList children

/-- Descendant enumeration of a forest. -/
def Ctl.descList : List Ctl → List Ctl
  | [] => []
  | c :: cs => c :: (Ctl.descendants c ++ Ctl.descList cs)

end

/-- Match of a control against a `child_window` query. -/
def ctlMatches (cls : String) (titleOk : String → Bool) (c : Ctl) : Bool :=
  c.class_name == cls && titleOk c.title

/-- Model of `child_window(class_name=cls, title_re=...).wrapper_object()`. -/
def childLookup (parent : Ctl) (cls : String) (titleOk : String → Bool) :
    Except String Ctl :=
  match parent.descendants.filter (ctlMatches cls titleOk) with
  | [] => .error "ElementNotFoundError"
  | [m] => .ok m
  | _ :: _ :: _ => .error "ElementAmbiguousError"

/-- Word character of the regex class `\w` (ASCII model). -/
def isWordChar (c : Char) : Bool :=
  c.isAlphanum || c == '_'

/-- Python `$` also matches just before one final newline; drop it
before testing an anchored pattern. -/
def dropTrailingNewline (cs : List Char) : List Char :=
  if cs.getLast? == some '\n' then cs.dropLast else cs

/-- Match of a title against `.+\.\w+$` as pywinauto applies it
(`re.match`, so anchored at the start; `.` does not cross newlines).
A title matches exactly when, after dropping one final newline, it is
newline-free and ends in a non-empty run of word characters preceded by
a dot that is not the first character: since `\w` never matches a dot,
the only place `\.` can sit is directly before the maximal word-char
suffix. -/
def filenameTitle (t : String) : Bool :=
  let cs := dropTrailingNewline t.data
  let suffix := (cs.reverse.takeWhile isWordChar).reverse
  let rest := cs.take (cs.length - suffix.length)
  !cs.contains '\n' && !suffix.isEmpty &&
    rest.getLast? == some '.' && decide (2 ≤ rest.length)

/-- Match of a button title against `^S&?peichern$`. -/
def speichernTitle (t : String) : Bool :=
  let cs := dropTrailingNewline t.data
  cs == "Speichern".data || cs == "S&peichern".data

/-- Match of a button title against `^Save$`. -/
def saveTitle (t : String) : Bool :=
  dropTrailingNewline t.data == "Save".data

/-- Observable interactions the interactor performs on the dialog. -/
inductive Act where
  | setFocus
  | clearText
  | typeKeys (text : String)
  | clickButton (title : String)
  | pressEnter
deriving DecidableEq

/-- Test for the Enter-key fallback action. -/
def isEnterAct : Act → Bool
  | .pressEnter => true
  | _ => false

/-- Model of `_fill_and_save_win32`.  The filename edit control is the
unique `Edit` descendant whose text matches `.+\.\w+$`; if that lookup
raises, the fallback is the matching `ComboBox` and its embedded `Edit`
(a failure of the fallback lookup propagates out of the function).  The
clearing `set_edit_text("")` sits in its own swallowing `try`, so it is
recorded unconditionally.  After typing, the confirm button is searched
under the German then the English label; with no button the dialog gets
a single Enter keystroke.  The function then returns `True`. -/
def fill_and_save_win32 (dlg : Ctl) (path : String) :
    Except String (Bool × List Act) :=
  let editLookup : Except String Ctl :=
    match childLookup dlg "Edit" filenameTitle with
    | .ok e => .ok e
    | .error _ =>
      match childLookup dlg "ComboBox" filenameTitle with
      | .ok combo => childLookup combo "Edit" (fun _ => true)
      | .error e => .error e
  match editLookup with
  | .error e => .error e
  | .ok _ =>
    let typed := [Act.setFocus, Act.clearText, Act.typeKeys path]
    match childLookup dlg "Button" speichernTitle with
    | .ok b => .ok (true, typed ++ [Act.clickButton b.title])
    | .error _ =>
      match childLookup dlg "Button" saveTitle with
      | .ok b => .ok (true, typed ++ [Act.clickButton b.title])
      | .error _ => .ok (true, typed ++ [Act.pressEnter])

/-- Error projection of an interactor run (`none` when it returned). -/
def errorMessage : Except String (Bool × List Act) → Option String
  | .error e => some e
  | .ok _ => none

/-- Model of the call `_fill_and_save(...)` in strategies 2 and 3 of
`save_in_word_dialog` (lines 222 and 234).  No function of that name is
defined or imported anywhere in the module - only `_fill_and_save_win32`
exists - so evaluating the name raises `NameError` before any argument
is even evaluated, which is why this model takes no arguments. -/
def fill_and_save : Except String Bool :=
  .error "NameError: name _fill_and_save is not defined"

/-! ## Window index and target resolution
(`_get_pid`, get_save_dialog.py lines 168-184)

A point-in-time snapshot of the desktop: for each backend, whether its
enumeration call raises and the top-level windows it reports.  `broken`
marks a window whose attribute access (`element_info`, `window_text`)
raises; in `_get_pid` and in strategy 2 that failure is what the
per-window and per-strategy handlers see.  `tlpExists` and `tlpVisible`
describe `top_level_parent()` of the window, used only by detection
strategy 3. -/

structure Win where
  class_name : String
  title : String
  control_type : String
  pid : Nat
  visible : Bool
  broken : Bool
  children : List Ctl
  tlpExists : Bool
  tlpVisible : Bool

/-- Desktop snapshot over the two backends, `uia` and `win32`. -/
structure WinEnv where
  uiaFails : Bool
  uiaWindows : List Win
  win32Fails : Bool
  win32Windows : List Win

/-- The inner loop of `_get_pid` over one backend's windows: a broken
window is skipped by its `except ... continue`; a set class name must
match exactly; a non-empty keyword must occur in the lowercased title;
the first window passing both filters supplies the process id. -/
def getPidScan (class_name keyword : String) : List Win → Option Nat
  | [] => none
  | w :: ws =>
    if w.broken then getPidScan class_name keyword ws
    else if class_name != "" && w.class_name != class_name then
      getPidScan class_name keyword ws
    else if keyword != "" && !containsSub (pyLower w.title) keyword then
      getPidScan class_name keyword ws
    else some w.pid

/-- Model of `_get_pid`: the keyword is lowercased once up front; the
`uia` backend is exhausted before `win32`; a backend whose enumeration
raises contributes nothing (`except ... continue`). -/
def get_pid (config : Config) (env : WinEnv) : Option Nat :=
  match (if env.uiaFails then none
         else getPidScan config.class_name (pyLower config.keyword) env.uiaWindows) with
  | some pid => some pid
  | none =>
    if env.win32Fails then none
    else getPidScan config.class_name (pyLower config.keyword) env.win32Windows

/-- The filter of `_get_pid` as a single predicate.  An empty keyword is
contained in every title, so the keyword guard of the source collapses
into plain containment. -/
def winMatches (class_name keyword : String) (w : Win) : Bool :=
  (class_name == "" || w.class_name == class_name) &&
    containsSub (pyLower w.title) keyword

/-- The windows `_get_pid` actually examines, in examination order:
per backend the non-broken windows in enumeration order, `uia` first,
a failing backend contributing nothing. -/
def consideredWindows (env : WinEnv) : List Win :=
  (if env.uiaFails then [] else env.uiaWindows.filter (fun w => !w.broken)) ++
    (if env.win32Fails then [] else env.win32Windows.filter (fun w => !w.broken))

/-! ## Dialog acquirer (`save_in_word_dialog`, lines 186-239)

One poll iteration tries the three detection strategies in order; a
strategy that executes `return` yields `some result`, otherwise the
iteration yields `none` and the loop sleeps and retries.  The `print`
calls are collected as a log.  Every pywinauto failure inside a
strategy is caught by that strategy's `except Exception` and turns the
strategy into a miss for this iteration. -/

/-- Strategy 1 for one backend: a `#32770` window of the target process
that exists and is visible is handed to `_fill_and_save_win32`; an
exception raised by the interactor is caught by the same handler that
guards the lookup, so the `return` never happens in that case. -/
def strat1Try (be : String) (fails : Bool) (ws : List Win) (pid : Nat)
    (path : String) : Option Bool × List String :=
  if fails then (none, [])
  else
    match ws.find? (fun w => w.class_name == "#32770" && w.pid == pid) with
    | some w =>
      if w.visible then
        match fill_and_save_win32 (Ctl.node w.class_name w.title w.children) path with
        | .ok (b, _) => (some b, ["[hit " ++ be ++ "] #32770"])
        | .error _ => (none, ["[hit " ++ be ++ "] #32770"])
      else (none, [])
    | none => (none, [])

/-- The scan of strategy 2 over the `uia` windows: there is no
per-window handler here, so the first broken window aborts the whole
strategy; otherwise the first window of the target process whose
control type is `Window` or `Pane` and whose title contains
Speichern/Save (case-insensitively, `re.search` with `re.I`) is the
hit. -/
def strat2Scan (pid : Nat) : List Win → Option Win
  | [] => none
  | w :: ws =>
    if w.broken then none
    else if w.pid == pid && (w.control_type == "Window" || w.control_type == "Pane")
        && (containsSub (pyLower w.title) "speichern"
            || containsSub (pyLower w.title) "save") then
      some w
    else strat2Scan pid ws

/-- Strategy 2: on a hit the source prints and then evaluates
`_fill_and_save(w, path)`, whose name lookup raises `NameError`; the
strategy's `except Exception: pass` swallows it, so the iteration
continues without returning. -/
def strat2Try (env : WinEnv) (pid : Nat) : Option Bool × List String :=
  if env.uiaFails then (none, [])
  else
    match strat2Scan pid env.uiaWindows with
    | some _ =>
      match fill_and_save with
      | .ok b => (some b, ["[hit uia] title contains Speichern/Save"])
      | .error _ => (none, ["[hit uia] title contains Speichern/Save"])
    | none => (none, [])

/-- Match of a window title against `title_re="CFD File .* Window"` as
pywinauto applies it (`re.match`: anchored at the start, no end anchor,
`.` does not cross newlines): the title starts with `CFD File ` and
`Window` occurs later on the same line. -/
def cfdTitleMatch (t : String) : Bool :=
  listStartsWith t.data "CFD File ".data &&
    listContainsSub ((t.data.drop 9).takeWhile (fun c => c != '\n')) "Window".data

/-- Strategy 3: a CFD helper window of the target process whose
top-level parent exists and is visible; the hit again reaches the
undefined `_fill_and_save`, so the swallowed `NameError` prevents the
`return` here too. -/
def strat3Try (env : WinEnv) (pid : Nat) : Option Bool × List String :=
  if env.win32Fails then (none, [])
  else
    match env.win32Windows.find? (fun w => cfdTitleMatch w.title && w.pid == pid) with
    | some w =>
      if w.tlpExists && w.tlpVisible then
        match fill_and_save with
        | .ok b => (some b, ["[hit win32] via CFD parent"])
        | .error _ => (none, ["[hit win32] via CFD parent"])
      else (none, [])
    | none => (none, [])

/-- One poll iteration of the acquisition loop: strategies in strict
priority order, stopping at the first one that returns. -/
def pollOnce (env : WinEnv) (pid : Nat) (path : String) :
    Option Bool × List String :=
  match strat1Try "uia" env.uiaFails env.uiaWindows pid path with
  | (some b, l) => (some b, l)
  | (none, l1) =>
    match strat1Try "win32" env.win32Fails env.win32Windows pid path with
    | (some b, l) => (some b, l1 ++ l)
    | (none, l2) =>
      match strat2Try env pid with
      | (some b, l) => (some b, l1 ++ l2 ++ l)
      | (none, l3) =>
        match strat3Try env pid with
        | (some b, l) => (some b, l1 ++ l2 ++ l3 ++ l)
        | (none, l4) => (none, l1 ++ l2 ++ l3 ++ l4)

/-- The `while time.time() - t0 < timeout` loop.  The desktop may change
between iterations, so the snapshot is indexed by the iteration number;
the fuel is the number of 0.2s poll intervals the timeout admits.  The
result carries the returned boolean, the number of iterations that
actually ran, and the collected log. -/
def saveLoop (env : Nat → WinEnv) (pid : Nat) (path : String) :
    Nat → Nat → Bool × Nat × List String
  | _, 0 => (false, 0, [])
  | i, n + 1 =>
    match pollOnce (env i) pid path with
    | (some b, l) => (b, 1, l)
    | (none, l) =>
      match saveLoop env pid path (i + 1) n with
      | (b, used, l2) => (b, used + 1, l ++ l2)

/-- Model of `save_in_word_dialog` after `_ensure_config`: the config
produced by loading or interactive selection is a parameter (the
selection dialog itself is interactive UI).  A missing config and a
missing process abort with `False`; a process id of `0` is falsy in
Python, so `if not pid` also treats it as not found. -/
def save_in_word_dialog (config : Option Config) (resolveEnv : WinEnv)
    (acqEnv : Nat → WinEnv) (path : String) (budget : Nat) :
    Bool × Nat × List String :=
  match config with
  | none => (false, 0, ["Kein Programm ausgewählt. Vorgang abgebrochen."])
  | some cfg =>
    match get_pid cfg resolveEnv with
    | none =>
      (false, 0, ["Kein passender Prozess gefunden (Klasse \x27" ++ cfg.class_name ++
        "\x27, Schlüsselwort \x27" ++ cfg.keyword ++ "\x27)."])
    | some pid =>
      if pid == 0 then
        (false, 0, ["Kein passender Prozess gefunden (Klasse \x27" ++ cfg.class_name ++
          "\x27, Schlüsselwort \x27" ++ cfg.keyword ++ "\x27)."])
      else saveLoop acqEnv pid path 0 budget

/-! ## Orchestrator callbacks (app/main.py lines 1183-1192 and 714-726)

Both background bodies call `save_in_word_dialog` inside a
`try/except Exception` and afterwards unconditionally marshal exactly
one `(success, message)` pair back to the UI thread through
`self.after(0, ...)`.  The automation call's behaviour is abstracted as
its outcome: a returned boolean or a raised exception text.  The result
of a body is the list of marshalled pairs, in order. -/

/-- Model of `_trigger_otbiolab_save.worker`. -/
def worker (outcome : Except String Bool) : List (Bool × String) :=
  match outcome with
  | .ok true => [(true, "Dateiname übergeben.")]
  | .ok false => [(false, "Speichern-Dialog wurde nicht gefunden.")]
  | .error exc =>
    [(false, "Fehler beim Zugriff auf den Speichern-Dialog: " ++ exc)]

/-- Model of `_trigger_repeated_measurement_otbiolab_save.callback`:
`success` and `message` start at their defaults and the message is only
replaced on success or on an exception. -/
def repeated_callback (filename : String) (outcome : Except String Bool) :
    List (Bool × String) :=
  match outcome with
  | .ok true => [(true, "Datei gespeichert: " ++ filename)]
  | .ok false => [(false, "Timeout oder Fehler beim Speichern.")]
  | .error exc => [(false, "Fehler: " ++ exc)]

/-! ## Concrete snapshots used by the closed theorems -/

/-- A `uia` window of process 42 that strategy 2 matches: titled like a
save dialog, of control type `Window`, visible, not broken. -/
def wSave : Win :=
  ⟨"OpusApp", "Dokument speichern", "Window", 42, true, false, [], false, false⟩

/-- Snapshot where only detection strategy 2 can hit. -/
def envStrat2 : WinEnv := ⟨false, [wSave], false, []⟩

/-- A visible `#32770` dialog of process 42 with no child controls at
all, so the filename lookup of the interactor cannot succeed.  Its
control type keeps strategy 2 from also firing. -/
def wBareDialog : Win :=
  ⟨"#32770", "Speichern unter", "Dialog", 42, true, false, [], false, false⟩

/-- Snapshot where strategy 1 hits but the interactor raises. -/
def envBareDialog : WinEnv := ⟨false, [wBareDialog], false, []⟩

/-- Snapshot with no windows at all. -/
def envEmpty : WinEnv := ⟨false, [], false, []⟩

/-- A dialog holding exactly one filename edit control and no buttons. -/
def dlgNoButton : Ctl :=
  Ctl.node "#32770" "Speichern unter" [Ctl.node "Edit" "tmp.docx" []]

/-! ## Helper lemmas -/

/-- The empty string is a substring of every string, as in Python. -/
theorem containsSub_empty (hay : String) : containsSub hay "" = true := by
  show listContainsSub hay.data [] = true
  cases hay.data <;> simp [listContainsSub, listStartsWith]

/-- Lowercasing the empty string gives the empty string. -/
theorem pyLower_empty : pyLower "" = "" := rfl

/-- The backend scan of `_get_pid` returns the process id of the first
non-broken window satisfying the combined filter predicate. -/
theorem getPidScan_eq_find (class_name keyword : String) (ws : List Win) :
    getPidScan class_name keyword ws =
      ((ws.filter (fun w => !w.broken)).find?
        (winMatches class_name keyword)).map Win.pid := by
  induction ws with
  | nil => rfl
  | cons w ws ih =>
    by_cases hb : w.broken = true <;>
      by_cases hcn : class_name = "" <;>
        by_cases hcc : w.class_name = class_name <;>
          by_cases hkw : keyword = "" <;>
            by_cases hct : containsSub (pyLower w.title) keyword = true <;>
              simp_all [getPidScan, List.filter_cons, List.find?_cons, winMatches,
                containsSub_empty]

/-- `_get_pid` as a single first-match search over the combined,
backend-ordered window list. -/
theorem get_pid_eq_find (config : Config) (env : WinEnv) :
    get_pid config env =
      ((consideredWindows env).find?
        (winMatches config.class_name (pyLower config.keyword))).map Win.pid := by
  unfold get_pid consideredWindows
  rw [List.find?_append]
  cases h1 : env.uiaFails <;> cases h2 : env.win32Fails <;>
    simp only [Bool.false_eq_true, if_false, if_true, List.find?_nil,
      getPidScan_eq_find] <;>
    cases hA : (env.uiaWindows.filter (fun w => !w.broken)).find?
        (winMatches config.class_name (pyLower config.keyword)) <;>
      simp [hA, Option.or]

/-- A search with an always-true predicate returns the head. -/
theorem find?_of_all_true {p : Win → Bool} (l : List Win) (hp : ∀ w, p w = true) :
    l.find? p = l.head? := by
  cases l with
  | nil => rfl
  | cons a l => simp [List.find?_cons, hp a]

/-- Interrupted in-place writes: applying `k` steps of a `write_text`
character sequence appends the first `k` characters. -/
theorem applyOps_writeChars (cs : List Char) (k : Nat) (s : List Char) :
    applyOps s ((cs.map FsOp.writeChar).take k) = s ++ cs.take k := by
  induction cs generalizing k s with
  | nil => simp [applyOps]
  | cons c cs ih =>
    cases k with
    | zero => simp [applyOps]
    | succ k =>
      simp only [List.map_cons, List.take_succ_cons]
      show applyOps (s ++ [c]) ((cs.map FsOp.writeChar).take k) = s ++ c :: cs.take k
      rw [ih]
      simp

/-- Stripping produces a contiguous fragment of the original characters. -/
theorem stripChars_within (cs : List Char) : stripChars cs <:+: cs := by
  have h1 : cs.dropWhile Char.isWhitespace <:+ cs := List.dropWhile_suffix _
  have h2 : (cs.dropWhile Char.isWhitespace).reverse.dropWhile Char.isWhitespace <:+
      (cs.dropWhile Char.isWhitespace).reverse := List.dropWhile_suffix _
  have h3 : stripChars cs <+: cs.dropWhile Char.isWhitespace := by
    rw [← List.reverse_suffix]
    simpa [stripChars] using h2
  exact h3.isInfix.trans h1.isInfix

/-- Shape of the dash split: it is never empty, its first chunk is an
initial run of the input and every later chunk is a contiguous run. -/
theorem splitDash_shape (cs : List Char) :
    ∃ h t, splitDash cs = h :: t ∧ h <+: cs ∧ ∀ l ∈ t, l <:+: cs := by
  induction cs with
  | nil => exact ⟨[], [], rfl, List.nil_prefix, by simp⟩
  | cons c cs ih =>
    obtain ⟨h, t, heq, hpre, htail⟩ := ih
    by_cases hd : isDashChar c = true
    · refine ⟨[], h :: t, by simp [splitDash, hd, heq], List.nil_prefix, ?_⟩
      intro l hl
      rcases List.mem_cons.mp hl with rfl | hl
      · exact List.infix_cons hpre.isInfix
      · exact List.infix_cons (htail l hl)
    · refine ⟨c :: h, t, by simp [splitDash, hd, heq], ?_, ?_⟩
      · exact List.cons_prefix_cons.mpr ⟨rfl, hpre⟩
      · intro l hl
        exact List.infix_cons (htail l hl)

/-- Every chunk of the dash split is a contiguous run of the input. -/
theorem splitDash_mem_within {cs l : List Char} (h : l ∈ splitDash cs) :
    l <:+: cs := by
  obtain ⟨hd, t, heq, hpre, htail⟩ := splitDash_shape cs
  rw [heq] at h
  rcases List.mem_cons.mp h with rfl | h
  · exact hpre.isInfix
  · exact htail l h

/-- The derived keyword is always a contiguous fragment of the title. -/
theorem derive_keyword_within (t : String) :
    (derive_keyword t).data <:+: t.data := by
  rcases hl : (derive_parts t).getLast? with _ | p
  · have hk : derive_keyword t = String.mk (stripChars t.data) := by
      unfold derive_keyword
      rw [hl]
    rw [hk]
    exact stripChars_within t.data
  · have hk : derive_keyword t = String.mk p := by
      unfold derive_keyword
      rw [hl]
    rw [hk]
    have hp : p ∈ derive_parts t := List.mem_of_mem_getLast? hl
    unfold derive_parts at hp
    obtain ⟨hp1, -⟩ := List.mem_filter.mp hp
    obtain ⟨chunk, hcm, hck⟩ := List.mem_map.mp hp1
    show p <:+: t.data
    have hsub : p <:+: chunk := hck ▸ stripChars_within chunk
    exact hsub.trans (splitDash_mem_within hcm)

/-- A run of the acquisition loop in which no poll iteration returns
consumes the whole budget and reports `False`. -/
theorem saveLoop_all_none (env : Nat → WinEnv) (pid : Nat) (path : String)
    (h : ∀ j, (pollOnce (env j) pid path).1 = none) (n : Nat) :
    ∀ i, (saveLoop env pid path i n).1 = false ∧
      (saveLoop env pid path i n).2.1 = n := by
  induction n with
  | zero => intro i; exact ⟨rfl, rfl⟩
  | succ n ih =>
    intro i
    have hi := h i
    rcases hp : pollOnce (env i) pid path with ⟨r, l⟩
    rw [hp] at hi
    simp only at hi
    subst hi
    rcases hL : saveLoop env pid path (i + 1) n with ⟨b, used, l2⟩
    have hih := ih (i + 1)
    rw [hL] at hih
    simp only [saveLoop, hp, hL]
    exact ⟨hih.1, by simp only [Nat.add_right_cancel_iff]; exact hih.2⟩

/-! ## Claim theorems -/

/-- Claim C1 (code bug): in a poll iteration where detection strategy 2
hits - a visible `uia` window of the resolved process with control type
`Window` and a Speichern/Save title - the acquirer does not hand the
dialog to the interactor and does not return its result: the call to the
undefined `_fill_and_save` raises `NameError`, the strategy's handler
swallows it, the hit is only logged, and the loop keeps polling until
the budget is exhausted and returns `False`. -/
theorem claim1_strategy2_hit_swallowed :
    strat2Scan 42 envStrat2.uiaWindows = some wSave ∧
    fill_and_save = .error "NameError: name _fill_and_save is not defined" ∧
    pollOnce envStrat2 42 "C:\\out.docx" =
      (none, ["[hit uia] title contains Speichern/Save"]) ∧
    saveLoop (fun _ => envStrat2) 42 "C:\\out.docx" 0 3 =
      (false, 3, ["[hit uia] title contains Speichern/Save",
        "[hit uia] title contains Speichern/Save",
        "[hit uia] title contains Speichern/Save"]) :=
  ⟨rfl, rfl, by decide, by decide⟩

/-- Claim C2, counterexample: interrupting `_save_config` right after
the truncation step leaves a file that is neither the old record nor
the new one - `write_text` is an in-place truncating write, not a
write-then-rename. -/
theorem claim2_counterexample :
    applyOps "OLD".data ((save_config_ops ⟨"A", "B"⟩).take 1) ≠ "OLD".data ∧
    applyOps "OLD".data ((save_config_ops ⟨"A", "B"⟩).take 1) ≠
      (dumpsConfig ⟨"A", "B"⟩).data ∧
    1 ≤ (save_config_ops ⟨"A", "B"⟩).length :=
  ⟨by decide, by decide, by decide⟩

/-- Claim C2 as amended: `_save_config` writes the encoding in place,
so an interrupted save leaves the old contents only when nothing ran
yet, and otherwise some prefix of the new encoding over a truncated
file - partial states are possible, atomicity is not provided. -/
theorem claim2_save_config_inplace (config : Config) (old : List Char) (k : Nat) :
    applyOps old ((save_config_ops config).take k) =
      if k = 0 then old else (dumpsConfig config).data.take (k - 1) := by
  cases k with
  | zero => rfl
  | succ k =>
    simp only [save_config_ops, write_text_ops, List.take_succ_cons,
      Nat.succ_ne_zero, if_false, Nat.add_sub_cancel]
    show applyOps [] (((dumpsConfig config).data.map FsOp.writeChar).take k) =
      (dumpsConfig config).data.take k
    rw [applyOps_writeChars]
    simp

/-- Claim C3, counterexample: with a visible `#32770` dialog of the
resolved process whose filename control cannot be found, the interactor
raises, the acquirer swallows the exception, and after the timeout the
caller gets the same bare `False` over the full budget as a run against
a desktop with no dialog at all - a generic timeout, not a failure
result carrying a descriptive interaction message. -/
theorem claim3_counterexample :
    errorMessage (fill_and_save_win32 (Ctl.node "#32770" "Speichern unter" []) "a.docx")
        = some "ElementNotFoundError" ∧
    saveLoop (fun _ => envBareDialog) 42 "a.docx" 0 3 =
      (false, 3, ["[hit uia] #32770", "[hit uia] #32770", "[hit uia] #32770"]) ∧
    saveLoop (fun _ => envEmpty) 42 "a.docx" 0 3 = (false, 3, []) :=
  ⟨rfl, by decide, by decide⟩

/-- Claim C3 as amended: a missing filename control makes the
interactor raise `ElementNotFoundError`; the acquirer's per-strategy
handler swallows the exception (so no exception reaches the caller),
every poll iteration comes back empty, and the loop exhausts its whole
budget and reports the plain boolean failure of a timeout, with no
descriptive interaction-failure message. -/
theorem claim3_missing_control_swallowed (dlg : Ctl) (path : String)
    (env : Nat → WinEnv) (pid n i : Nat)
    (h1 : dlg.descendants.filter (ctlMatches "Edit" filenameTitle) = [])
    (h2 : dlg.descendants.filter (ctlMatches "ComboBox" filenameTitle) = [])
    (h3 : ∀ j, (pollOnce (env j) pid path).1 = none) :
    errorMessage (fill_and_save_win32 dlg path) = some "ElementNotFoundError" ∧
    (saveLoop env pid path i n).1 = false ∧
    (saveLoop env pid path i n).2.1 = n := by
  refine ⟨?_, (saveLoop_all_none env pid path h3 n i).1,
    (saveLoop_all_none env pid path h3 n i).2⟩
  simp [fill_and_save_win32, childLookup, h1, h2, errorMessage]

/-- Claim C3 witness: the amended statement at the concrete bare-dialog
snapshot with a budget of three poll intervals. -/
theorem claim3_witness :
    errorMessage (fill_and_save_win32 (Ctl.node "#32770" "Speichern unter" []) "a.docx")
        = some "ElementNotFoundError" ∧
    (saveLoop (fun _ => envBareDialog) 42 "a.docx" 0 3).1 = false ∧
    (saveLoop (fun _ => envBareDialog) 42 "a.docx" 0 3).2.1 = 3 :=
  claim3_missing_control_swallowed (Ctl.node "#32770" "Speichern unter" []) "a.docx"
    (fun _ => envBareDialog) 42 3 0 rfl rfl
    (fun _ => show (pollOnce envBareDialog 42 "a.docx").1 = none by decide)

/-- Claim C4, counterexample: selecting a window titled
`MyApp — Save As` persists the keyword `Save As` exactly as derived,
with its original capitalisation - the stored keyword is not
lowercased. -/
theorem claim4_counterexample :
    on_select [⟨"MyApp — Save As", "OpusApp"⟩] (some 0) =
      some ⟨"OpusApp", "Save As"⟩ ∧
    pyLower "Save As" = "save as" ∧
    ("Save As" : String) ≠ "save as" :=
  ⟨by decide, by decide, by decide⟩

/-- Claim C4 as amended: the keyword persisted by interactive selection
is `_derive_keyword` of the chosen title - the last dash-separated
segment, stripped, in its original case (hence a contiguous fragment of
the title); lowercasing happens only later, at resolution time. -/
theorem claim4_keyword_original_case (windows : List WindowEntry) (idx : Nat)
    (w : WindowEntry) (h : windows[idx]? = some w) :
    on_select windows (some idx) = some ⟨w.class_name, derive_keyword w.title⟩ ∧
    (derive_keyword w.title).data <:+: w.title.data := by
  constructor
  · simp [on_select, h]
  · exact derive_keyword_within w.title

/-- Claim C4 witness: the amended statement at the spec's own example
title. -/
theorem claim4_witness :
    on_select [⟨"MyApp — Save As", "OpusApp"⟩] (some 0) =
      some ⟨"OpusApp", derive_keyword "MyApp — Save As"⟩ ∧
    (derive_keyword "MyApp — Save As").data <:+: ("MyApp — Save As" : String).data :=
  claim4_keyword_original_case [⟨"MyApp — Save As", "OpusApp"⟩] 0
    ⟨"MyApp — Save As", "OpusApp"⟩ rfl

/-- Claim C5: for every absent or malformed persisted record - missing
file, text that is not JSON, JSON that is not a dict, or a dict lacking
`class_name` or `keyword` - loading returns none; raising paths inside
the loader are caught, so the total model returns instead of failing. -/
theorem claim5_load_malformed_none (fs : FileState)
    (h : isMalformed fs = true) : load_config fs = none := by
  cases fs with
  | missing => rfl
  | content c =>
    cases c with
    | noJson => rfl
    | json doc =>
      cases doc with
      | obj kvs =>
        have h2 : (dictHas kvs "class_name" && dictHas kvs "keyword") = false := by
          simp only [isMalformed, Bool.not_eq_true'] at h
          exact h
        simp [load_config, load_config_try, h2]
      | null => rfl
      | bool b => rfl
      | int n => rfl
      | str s => rfl
      | arr es => rfl

/-- Claim C5 witness: a JSON document that is a bare string is
malformed and loads as none. -/
theorem claim5_witness :
    isMalformed (.content (.json (.str "oops"))) = true ∧
    load_config (.content (.json (.str "oops"))) = none :=
  ⟨rfl, claim5_load_malformed_none _ rfl⟩

/-- Claim C6: target resolution is the deterministic first match over
the fixed enumeration - the `uia` backend exhausted before `win32`,
windows in enumeration order, matching on the class name when it is set
and on case-insensitive keyword containment in the title (an empty
keyword is contained in every title, mirroring the skipped guard). -/
theorem claim6_get_pid_first_match (config : Config) (env : WinEnv) :
    get_pid config env =
      ((consideredWindows env).find?
        (winMatches config.class_name (pyLower config.keyword))).map Win.pid :=
  get_pid_eq_find config env

/-- Claim C7: both orchestrator bodies marshal exactly one
`(succeeded, message)` pair back to the caller, whatever the automation
call does - returns true, returns false, or raises. -/
theorem claim7_exactly_one_result (outcome : Except String Bool) (filename : String) :
    (worker outcome).length = 1 ∧ (repeated_callback filename outcome).length = 1 := by
  cases outcome with
  | ok b => cases b <;> exact ⟨rfl, rfl⟩
  | error e => exact ⟨rfl, rfl⟩

/-- Claim C8: with an empty discriminator the class guard of `_get_pid`
is skipped, and resolution is exactly first-match on case-insensitive
keyword containment in the title - the window class plays no part in
the predicate. -/
theorem claim8_empty_discriminator_keyword_only (keyword : String) (env : WinEnv) :
    get_pid ⟨"", keyword⟩ env =
      ((consideredWindows env).find?
        (fun w => containsSub (pyLower w.title) (pyLower keyword))).map Win.pid := by
  rw [get_pid_eq_find]
  have hp : winMatches (Config.mk "" keyword).class_name
      (pyLower (Config.mk "" keyword).keyword) =
      fun w => containsSub (pyLower w.title) (pyLower keyword) := by
    funext w
    simp [winMatches]
  rw [hp]

/-- Claim C9: when the filename edit control is found and neither the
German nor the English confirm button exists, the interactor sends
exactly one Enter keystroke as fallback - no retry - and still returns
success. -/
theorem claim9_enter_fallback_once (dlg : Ctl) (path : String) (e : Ctl)
    (h1 : dlg.descendants.filter (ctlMatches "Edit" filenameTitle) = [e])
    (h2 : dlg.descendants.filter (ctlMatches "Button" speichernTitle) = [])
    (h3 : dlg.descendants.filter (ctlMatches "Button" saveTitle) = []) :
    fill_and_save_win32 dlg path =
      .ok (true, [Act.setFocus, Act.clearText, Act.typeKeys path, Act.pressEnter]) ∧
    ([Act.setFocus, Act.clearText, Act.typeKeys path,
        Act.pressEnter].filter isEnterAct).length = 1 := by
  constructor
  · simp [fill_and_save_win32, childLookup, h1, h2, h3]
  · rfl

/-- Claim C9 witness: the concrete dialog with one filename edit
control and no buttons. -/
theorem claim9_witness :
    fill_and_save_win32 dlgNoButton "C:\\t.docx" =
      .ok (true, [Act.setFocus, Act.clearText, Act.typeKeys "C:\\t.docx",
        Act.pressEnter]) ∧
    ([Act.setFocus, Act.clearText, Act.typeKeys "C:\\t.docx",
        Act.pressEnter].filter isEnterAct).length = 1 :=
  claim9_enter_fallback_once dlgNoButton "C:\\t.docx"
    (Ctl.node "Edit" "tmp.docx" []) rfl rfl rfl

/-- Claim C10: a persisted dict with both fields empty loads as a valid
identity, and resolving it skips both the class and the keyword guard,
so the very first window the first available backend enumerates - any
foreign process - matches. -/
theorem claim10_empty_identity_first_window :
    load_config (.content (.json (.obj [("class_name", .str ""), ("keyword", .str "")])))
        = some ⟨"", ""⟩ ∧
    ∀ env : WinEnv, get_pid ⟨"", ""⟩ env = (consideredWindows env).head?.map Win.pid := by
  refine ⟨by decide, fun env => ?_⟩
  rw [get_pid_eq_find,
    find?_of_all_true _ (fun w => by simp [winMatches, pyLower_empty, containsSub_empty])]

end HdsemgTrail
